import Mathlib

/-!
Shallow embedding of the SAM image labeler front-end
(`static/script.js`, the annotation session script).

The script keeps all session state in module-level mutable variables
(`imagesState`, `activeImageId`, `classes`, `activeClass`, `isPredicting`)
and mutates them from DOM event handlers.  Each handler is embedded below as
a pure function `AppState → AppState`; the two asynchronous continuations of
`generateMask` (the `fetch('/predict')` resolution and the
`createColoredMask(...).then(...)` image-load completion) are embedded as
separate events, so that the interleavings the browser can produce are the
traces of the event system `step` / `ValidEvent` / `Reachable`.

Colors are kept as the hex strings the script passes around; a colored mask
is modelled by the color its pixels were painted with (`createColoredMask`
paints every opaque pixel with exactly one color, see `recolorData` for the
per-pixel loop).  Pixel coordinates are integers, viewport geometry is
rational (`getBoundingClientRect` yields fractional CSS pixels).
-/

namespace SamLabeler

/-- A seed point, `{ x, y, label }` as pushed by the canvas `mousedown`
handler; `label` is `1` for a left click (positive) and `0` otherwise. -/
structure Point where
  x : Int
  y : Int
  label : Nat
deriving Repr, DecidableEq

/-- A colored mask (`createColoredMask` output), identified by the hex color
its opaque pixels were painted with. -/
structure ColoredMask where
  color : String
deriving Repr, DecidableEq

/-- An element of `state.savedMasks` as pushed by the save-mask click
handler: the mask image (carrying the pixel color it was painted with at
prediction time), the class name and the class color at save time. -/
structure SavedMask where
  maskColor : String
  className : String
  classColor : String
deriving Repr, DecidableEq

/-- A class `{ name, color }` from the `classes` array. -/
structure ClassDef where
  name : String
  color : String
deriving Repr, DecidableEq

/-- One element of `imagesState`: per-image points, current (pending) mask,
saved (confirmed) masks and the highlighted mask index.  `imageWidth` and
`imageHeight` are the decoded image's pixel dimensions (the canvas is resized
to them in `updateAllUI`). -/
structure ImageEntry where
  imageWidth : Int
  imageHeight : Int
  points : List Point := []
  currentMask : Option ColoredMask := none
  savedMasks : List SavedMask := []
  highlightedMaskIndex : Option Nat := none
deriving Repr, DecidableEq

/-- A pending `createColoredMask(...).then(...)` continuation of
`generateMask`: it will set `currentMask` of the entry captured at
`generateMask` start (`target`) to a mask painted `color`. -/
structure MaskLoad where
  target : Nat
  color : String
deriving Repr, DecidableEq

/-- The script's module-level mutable state.  `fetchInFlight` records the
image index captured by a running `generateMask` between its `fetch` call and
the `fetch` settling (`isPredicting` is `true` exactly then); `maskLoads` are
the registered colored-mask load continuations not yet fired. -/
structure AppState where
  imagesState : List ImageEntry := []
  activeImageId : Option Nat := none
  classes : List ClassDef := []
  activeClass : Option String := none
  isPredicting : Bool := false
  fetchInFlight : Option Nat := none
  maskLoads : List MaskLoad := []
deriving Repr, DecidableEq

/-- `getActiveImageState`: `activeImageId !== null ? imagesState[activeImageId] : null`. -/
def getActiveImageState (s : AppState) : Option ImageEntry :=
  match s.activeImageId with
  | none => none
  | some id => s.imagesState[id]?

/-- `findClassByName`: `classes.find(c => c.name === name)`. -/
def findClassByName (classes : List ClassDef) (name : String) : Option ClassDef :=
  classes.find? (fun c => c.name = name)

/-- JavaScript `Math.round x = ⌊x + 1/2⌋` (half-up rounding, ties toward
positive infinity). -/
def jsRound (q : ℚ) : Int := ⌊q + 1 / 2⌋

/-- The coordinate mapping performed inline by the canvas `mousedown`
handler: `scale = canvas.width / rect.width`,
`x = Math.round((e.clientX - rect.left) * scale)` (one axis). -/
def mapCoord (client origin imageDim displayDim : ℚ) : Int :=
  jsRound ((client - origin) * (imageDim / displayDim))

/-- The body of `generateMask` up to the `fetch` call: re-reads the active
entry, returns if it is missing or has no points, else raises `isPredicting`
and starts the request for that entry. -/
def generateMaskStart (s : AppState) : AppState :=
  match s.activeImageId with
  | none => s
  | some id =>
    match s.imagesState[id]? with
    | none => s
    | some entry =>
      if entry.points.isEmpty then s
      else { s with isPredicting := true, fetchInFlight := some id }

/-- The canvas `mousedown` handler: returns if there is no active entry or a
prediction is in flight; otherwise converts the click to image coordinates,
pushes the point (`label` 1 for button 0, else 0) and calls `generateMask`. -/
def mousedown (clientX clientY rectLeft rectTop rectWidth rectHeight : ℚ)
    (button : Nat) (s : AppState) : AppState :=
  match s.activeImageId with
  | none => s
  | some id =>
    match s.imagesState[id]? with
    | none => s
    | some entry =>
      if s.isPredicting then s
      else
        let x := mapCoord clientX rectLeft (entry.imageWidth : ℚ) rectWidth
        let y := mapCoord clientY rectTop (entry.imageHeight : ℚ) rectHeight
        let label : Nat := if button = 0 then 1 else 0
        let entry' := { entry with
          points := (entry.points ++ [{ x := x, y := y, label := label }]) }
        generateMaskStart { s with imagesState := s.imagesState.set id entry' }

/-- The color chosen by `generateMask` after the response arrives:
`activeClass ? findClassByName(activeClass).color : '#FF0000'`.  `none`
marks the `TypeError` the script would throw if the active class were not
registered (unreachable: the active class is always registered). -/
def predictionColor (s : AppState) : Option String :=
  match s.activeClass with
  | none => some "#FF0000"
  | some n => (findClassByName s.classes n).map (fun c => c.color)

/-- The `fetch('/predict')` resolving successfully: `generateMask` computes
the color from the class active now, registers the colored-mask load
continuation for the entry captured at request time, and `finally` clears
`isPredicting`.  If the color lookup would throw, the `catch`/`finally` path
is taken instead (no continuation registered). -/
def fetchSuccess (s : AppState) : AppState :=
  match s.fetchInFlight with
  | none => s
  | some id =>
    match predictionColor s with
    | some c =>
      { s with isPredicting := false, fetchInFlight := none,
               maskLoads := (s.maskLoads ++ [{ target := id, color := c }]) }
    | none => { s with isPredicting := false, fetchInFlight := none }

/-- The `fetch('/predict')` failing (network error or non-ok response):
`generateMask` logs the error to the console and `finally` clears
`isPredicting`; no state of any image entry changes. -/
def fetchFailure (s : AppState) : AppState :=
  match s.fetchInFlight with
  | none => s
  | some _ => { s with isPredicting := false, fetchInFlight := none }

/-- A registered `createColoredMask(...).then(coloredMask => ...)`
continuation firing: it sets `state.currentMask = coloredMask` on the entry
captured at request time, unconditionally. -/
def maskLoadComplete (k : Nat) (s : AppState) : AppState :=
  match s.maskLoads[k]? with
  | none => s
  | some load =>
    let s' := { s with maskLoads := s.maskLoads.eraseIdx k }
    match s'.imagesState[load.target]? with
    | none => s'
    | some entry =>
      { s' with imagesState := (s'.imagesState.set load.target
          { entry with currentMask := some { color := load.color } }) }

/-- The save-mask click handler (`saveMaskButton`): returns if there is no
active entry, no current mask or no active class; otherwise pushes a
`SavedMask` built from the current mask and the active class's registered
name and color, then clears `currentMask` and `points`. -/
def saveMaskClick (s : AppState) : AppState :=
  match s.activeImageId with
  | none => s
  | some id =>
    match s.imagesState[id]? with
    | none => s
    | some entry =>
      match entry.currentMask, s.activeClass with
      | some m, some n =>
        match findClassByName s.classes n with
        | some classInfo =>
          let entry' := { entry with
            savedMasks := (entry.savedMasks ++
              [{ maskColor := m.color, className := classInfo.name,
                 classColor := classInfo.color }]),
            currentMask := none,
            points := [] }
          { s with imagesState := s.imagesState.set id entry' }
        | none => s
      | _, _ => s

/-- Distinguished validation errors named by the specification.  The save
handler's guard paths return without signaling anything, so the error
component produced by `saveMaskClickE` is `none` on every path. -/
inductive SaveError where
  | noPendingMask
  | unknownClass
deriving Repr, DecidableEq

/-- The save-mask click handler together with an explicit error channel: the
handler body contains no `throw` and no error callback, so no error value is
ever produced, on the guarded no-op paths included. -/
def saveMaskClickE (s : AppState) : AppState × Option SaveError :=
  (saveMaskClick s, none)

/-- The clear-points click handler: if the active entry has points or a
current mask, both are cleared. -/
def clearPointsClick (s : AppState) : AppState :=
  match s.activeImageId with
  | none => s
  | some id =>
    match s.imagesState[id]? with
    | none => s
    | some entry =>
      if 0 < entry.points.length ∨ entry.currentMask.isSome then
        { s with imagesState := (s.imagesState.set id
            { entry with points := [], currentMask := none }) }
      else s

/-- The add-class click handler.  The handler reads
`newClassInput.value.trim()`; the event payload `className` carries that
already-trimmed input string.  If it is nonempty and not yet registered, the
class is pushed and made active; otherwise (a registered duplicate) the
handler alerts and changes nothing. -/
def addClassClick (className colorValue : String) (s : AppState) : AppState :=
  if className ≠ "" ∧ (findClassByName s.classes className).isNone then
    { s with classes := s.classes ++ [{ name := className, color := colorValue }],
             activeClass := some className }
  else s

/-- `setActiveClass`, reached by clicking a rendered class list item. -/
def setActiveClassOp (className : String) (s : AppState) : AppState :=
  { s with activeClass := some className }

/-- The saved-masks list click handler: toggles the active entry's
`highlightedMaskIndex` — clears it if it already equals the clicked index,
else sets it to the clicked index.  No bounds check is performed. -/
def toggleHighlightOp (maskIndex : Nat) (s : AppState) : AppState :=
  match s.activeImageId with
  | none => s
  | some id =>
    match s.imagesState[id]? with
    | none => s
    | some entry =>
      let hi := if entry.highlightedMaskIndex = some maskIndex
                then none else some maskIndex
      { s with imagesState := (s.imagesState.set id
          { entry with highlightedMaskIndex := hi }) }

/-- `setActiveImage`, reached by clicking a rendered thumbnail. -/
def setActiveImageOp (imageId : Nat) (s : AppState) : AppState :=
  { s with activeImageId := some imageId }

/-- The image-loader change handler after all selected files decode: one
fresh entry per file is pushed, then the first image is activated if none
was active. -/
def loadFiles (dims : List (Int × Int)) (s : AppState) : AppState :=
  if dims.isEmpty then s
  else
    let s' := { s with imagesState := (s.imagesState ++
      dims.map (fun d => { imageWidth := d.1, imageHeight := d.2 : ImageEntry })) }
    if s.activeImageId.isNone ∧ 0 < s'.imagesState.length then
      { s' with activeImageId := some 0 }
    else s'

/-- The per-pixel loop of `createColoredMask`: the flat RGBA byte buffer of
the mask's `ImageData` is walked four bytes at a time; a pixel whose alpha
byte is positive is overwritten with `(r, g, b, 128)`, a pixel with zero
alpha is left untouched. -/
def recolorData (r g b : Nat) : List Nat → List Nat
  | pr :: pg :: pb :: pa :: rest =>
    if 0 < pa then r :: g :: b :: 128 :: recolorData r g b rest
    else pr :: pg :: pb :: pa :: recolorData r g b rest
  | other => other

/-- A pixel of an RGBA buffer. -/
structure RGBA where
  r : Nat
  g : Nat
  b : Nat
  a : Nat
deriving Repr, DecidableEq

/-- Flatten a pixel list into the flat byte layout of `ImageData.data`. -/
def toFlat : List RGBA → List Nat
  | [] => []
  | p :: ps => p.r :: p.g :: p.b :: p.a :: toFlat ps

/-- Per-pixel restatement of the recoloring loop, following the spec's
`recolor` contract, to be compared with the byte-level `recolorData`. -/
def recolorPixel (r g b : Nat) (p : RGBA) : RGBA :=
  if 0 < p.a then { r := r, g := g, b := b, a := 128 } else p

/-- The events the browser can deliver to the script: the user-interaction
handlers plus the two asynchronous continuations of `generateMask`. -/
inductive Event where
  | evMousedown (clientX clientY rectLeft rectTop rectWidth rectHeight : ℚ) (button : Nat)
  | evFetchSuccess
  | evFetchFailure
  | evMaskLoad (k : Nat)
  | evSaveMask
  | evClearPoints
  | evAddClass (className colorValue : String)
  | evSetActiveClass (className : String)
  | evToggleHighlight (maskIndex : Nat)
  | evSetActiveImage (imageId : Nat)
  | evLoadFiles (dims : List (Int × Int))

/-- The effect of one event on the script state. -/
def step : Event → AppState → AppState
  | .evMousedown cx cy rl rt rw rh b => mousedown cx cy rl rt rw rh b
  | .evFetchSuccess => fetchSuccess
  | .evFetchFailure => fetchFailure
  | .evMaskLoad k => maskLoadComplete k
  | .evSaveMask => saveMaskClick
  | .evClearPoints => clearPointsClick
  | .evAddClass n c => addClassClick n c
  | .evSetActiveClass n => setActiveClassOp n
  | .evToggleHighlight i => toggleHighlightOp i
  | .evSetActiveImage i => setActiveImageOp i
  | .evLoadFiles dims => loadFiles dims

/-- Which events the DOM can actually emit in a given state: a `fetch`
settles only while a request is outstanding; a mask-load continuation must
have been registered; class-list and thumbnail clicks name rendered items;
saved-mask list items exist only for indices below the active entry's
`savedMasks.length` (`renderMasksListUI`). -/
def ValidEvent (s : AppState) : Event → Bool
  | .evFetchSuccess => s.fetchInFlight.isSome
  | .evFetchFailure => s.fetchInFlight.isSome
  | .evMaskLoad k => decide (k < s.maskLoads.length)
  | .evToggleHighlight i =>
    match s.activeImageId with
    | none => true
    | some id =>
      match s.imagesState[id]? with
      | none => true
      | some entry => decide (i < entry.savedMasks.length)
  | .evSetActiveImage i => decide (i < s.imagesState.length)
  | .evSetActiveClass n => (findClassByName s.classes n).isSome
  | _ => true

/-- The initial state of the script (lines declaring the module variables). -/
def initState : AppState := {}

/-- The states the script can reach from its initial state through events the
DOM can emit. -/
inductive Reachable : AppState → Prop
  | init : Reachable initState
  | step {s : AppState} {e : Event} :
      Reachable s → ValidEvent s e = true → Reachable (step e s)

/-- Entry-level invariant: `highlightedMaskIndex`, when present, is a valid
index into `savedMasks`. -/
def entryHiOk (e : ImageEntry) : Prop :=
  ∀ i, e.highlightedMaskIndex = some i → i < e.savedMasks.length

/-- Session invariant: every entry's highlight is in range, and the active
class, when set, names a registered class. -/
def Inv (s : AppState) : Prop :=
  (∀ e ∈ s.imagesState, entryHiOk e) ∧
  (∀ n, s.activeClass = some n → (findClassByName s.classes n).isSome)

/-- An 8×6 image entry with one point and a pending mask painted red (the
prediction ran while no class was active). -/
def exSaveEntry : ImageEntry :=
  { imageWidth := 8
    imageHeight := 6
    points := [{ x := 1, y := 1, label := 1 }]
    currentMask := some { color := "#FF0000" } }

/-- A concrete session: one 8×6 image whose pending mask was produced while
no class was active (painted red), after which the green class `cat` was
registered and made active.  Realizable in the UI: click before creating any
class, then add the class and save. -/
def exSaveState : AppState :=
  { imagesState := [exSaveEntry]
    activeImageId := some 0
    classes := [{ name := "cat", color := "#00FF00" }]
    activeClass := some "cat" }

/-- An 8×6 image entry with one point and no pending mask. -/
def exNoMaskEntry : ImageEntry :=
  { imageWidth := 8
    imageHeight := 6
    points := [{ x := 1, y := 1, label := 1 }] }

/-- A concrete session whose active entry has points but no pending mask
(state `POINTS_PLACED`), with a registered active class. -/
def exNoMaskState : AppState :=
  { imagesState := [exNoMaskEntry]
    activeImageId := some 0
    classes := [{ name := "cat", color := "#00FF00" }]
    activeClass := some "cat" }

/-- A concrete session with one image and no saved masks. -/
def exEmptyMasksState : AppState :=
  { imagesState := [{ imageWidth := 8, imageHeight := 6 }]
    activeImageId := some 0 }

/-- An 8×6 image entry with two saved masks and the highlight on index 0. -/
def exTwoMasksEntry : ImageEntry :=
  { imageWidth := 8
    imageHeight := 6
    savedMasks := [{ maskColor := "#00FF00", className := "cat", classColor := "#00FF00" },
                   { maskColor := "#0000FF", className := "dog", classColor := "#0000FF" }]
    highlightedMaskIndex := some 0 }

/-- A concrete session whose active entry has two saved masks and highlight
on the first. -/
def exTwoMasksState : AppState :=
  { imagesState := [exTwoMasksEntry]
    activeImageId := some 0 }

/-- An 8×6 image entry with two points and a pending mask from an earlier
prediction round. -/
def exPredictingEntry : ImageEntry :=
  { imageWidth := 8
    imageHeight := 6
    points := [{ x := 1, y := 1, label := 1 }, { x := 2, y := 2, label := 0 }]
    currentMask := some { color := "#FF0000" } }

/-- A concrete session with a request outstanding (`isPredicting`) on an
entry that has points and a pending mask from an earlier round. -/
def exPredictingState : AppState :=
  { imagesState := [exPredictingEntry]
    activeImageId := some 0
    isPredicting := true
    fetchInFlight := some 0 }

/-- A concrete session with a registered colored-mask load continuation
targeting entry 0 (which currently has no pending mask). -/
def exLoadState : AppState :=
  { imagesState := [exNoMaskEntry]
    activeImageId := some 0
    maskLoads := [{ target := 0, color := "#FF0000" }] }

/-- A browser trace: load one image, click once (point added, request
started), the request resolves (red, no class active) registering a
colored-mask load, then a second click lands before the colored mask
finishes loading — the second point is appended and a second request starts
while the first response's load continuation is still pending. -/
def staleTrace : AppState :=
  step (.evMousedown 2 2 0 0 8 6 0)
    (step .evFetchSuccess
      (step (.evMousedown 1 1 0 0 8 6 0)
        (step (.evLoadFiles [(8, 6)]) initState)))

/-- A browser trace reaching a saved, highlighted mask: load an image, add
the class `cat`, click, let the request resolve and the colored mask load,
save the mask, then click the saved-masks list entry. -/
def highlightTrace : AppState :=
  step (.evToggleHighlight 0)
    (step .evSaveMask
      (step (.evMaskLoad 0)
        (step .evFetchSuccess
          (step (.evMousedown 1 1 0 0 8 6 0)
            (step (.evAddClass "cat" "#00FF00")
              (step (.evLoadFiles [(8, 6)]) initState))))))

end SamLabeler

namespace SamLabeler

/-- C5: the byte-level recoloring loop acts pixelwise: every pixel with
positive source alpha becomes `(r, g, b, 128)` — the fixed blend alpha,
independent of the source alpha value — and every pixel with source alpha 0
is left fully transparent (alpha stays 0). -/
theorem recolorData_pixelwise (r g b : Nat) (ps : List RGBA) :
    recolorData r g b (toFlat ps) = toFlat (ps.map (recolorPixel r g b)) ∧
    ∀ p : RGBA,
      (0 < p.a → recolorPixel r g b p = { r := r, g := g, b := b, a := 128 }) ∧
      (p.a = 0 → (recolorPixel r g b p).a = 0) := by
  constructor
  · induction ps with
    | nil => rfl
    | cons p ps ih =>
      by_cases h : 0 < p.a
      · simp [toFlat, recolorData, recolorPixel, h, ih]
      · simp [toFlat, recolorData, recolorPixel, h, ih]
  · intro p
    constructor
    · intro h; simp [recolorPixel, h]
    · intro h; simp [recolorPixel, h]

/-- Witness for `recolorData_pixelwise` at a concrete two-pixel buffer and a
concrete opaque pixel. -/
theorem recolorData_pixelwise_witness :
    recolorData 9 8 7 (toFlat [⟨1, 2, 3, 4⟩, ⟨5, 6, 7, 0⟩]) =
      toFlat ([⟨1, 2, 3, 4⟩, ⟨5, 6, 7, 0⟩].map (recolorPixel 9 8 7)) ∧
    recolorPixel 9 8 7 ⟨1, 2, 3, 4⟩ = { r := 9, g := 8, b := 7, a := 128 } ∧
    (recolorPixel 9 8 7 ⟨5, 6, 7, 0⟩).a = 0 :=
  ⟨(recolorData_pixelwise 9 8 7 [⟨1, 2, 3, 4⟩, ⟨5, 6, 7, 0⟩]).1,
   ((recolorData_pixelwise 9 8 7 [⟨1, 2, 3, 4⟩, ⟨5, 6, 7, 0⟩]).2 ⟨1, 2, 3, 4⟩).1 (by decide),
   ((recolorData_pixelwise 9 8 7 [⟨1, 2, 3, 4⟩, ⟨5, 6, 7, 0⟩]).2 ⟨5, 6, 7, 0⟩).2 rfl⟩

/-- C4 counterexample: the mousedown coordinate mapping performs no clamping;
for an 800-wide image displayed 400 wide, a click at viewport x = 500 maps to
image x = 1000, outside `[0, 799]`. -/
theorem mapCoord_not_clamped :
    mapCoord 500 0 800 400 = 1000 ∧ ¬ ((1000 : Int) ≤ 800 - 1) := by
  constructor
  · norm_num [mapCoord, jsRound]
  · norm_num

/-- C4 (amended): the mousedown handler computes
`x = Math.round((clientX - originX) * imageWidth / displayWidth)` (and `y`
analogously) with no clamping; in particular an 800×600 image displayed at
400×300 maps a click at viewport (100,100) (origin (0,0)) to image point
(200,200). -/
theorem mapCoord_formula_and_scenario :
    (∀ c o iW dW : ℚ, mapCoord c o iW dW = round ((c - o) * iW / dW)) ∧
    mapCoord 100 0 800 400 = 200 ∧ mapCoord 100 0 600 300 = 200 := by
  refine ⟨fun c o iW dW => ?_, ?_, ?_⟩
  · simp [mapCoord, jsRound, round_eq, mul_div_assoc]
  · norm_num [mapCoord, jsRound]
  · norm_num [mapCoord, jsRound]

end SamLabeler

namespace SamLabeler

lemma mem_of_getElem?_some {α : Type} {l : List α} {i : Nat} {a : α}
    (h : l[i]? = some a) : a ∈ l := by
  obtain ⟨hl, he⟩ := List.getElem?_eq_some.mp h
  exact he ▸ List.getElem_mem hl

lemma lt_length_of_getElem?_some {α : Type} {l : List α} {i : Nat} {a : α}
    (h : l[i]? = some a) : i < l.length :=
  (List.getElem?_eq_some.mp h).1

lemma entryHiOk_of_set {l : List ImageEntry} {id : Nat} {e' : ImageEntry}
    (hl : ∀ e ∈ l, entryHiOk e) (he' : entryHiOk e') :
    ∀ e ∈ l.set id e', entryHiOk e := by
  intro e he
  rcases List.mem_or_eq_of_mem_set he with h | rfl
  · exact hl e h
  · exact he'

lemma inv_generateMaskStart {s : AppState} (hs : Inv s) : Inv (generateMaskStart s) := by
  unfold generateMaskStart
  split
  · exact hs
  · split
    · exact hs
    · split
      · exact hs
      · exact hs

lemma inv_mousedown {s : AppState} (cx cy rl rt rw rh : ℚ) (b : Nat) (hs : Inv s) :
    Inv (mousedown cx cy rl rt rw rh b s) := by
  unfold mousedown
  split
  · exact hs
  · split
    · exact hs
    · rename_i entry hentry
      split
      · exact hs
      · exact inv_generateMaskStart
          ⟨entryHiOk_of_set hs.1
            (fun i hi => hs.1 entry (mem_of_getElem?_some hentry) i hi), hs.2⟩

lemma inv_fetchSuccess {s : AppState} (hs : Inv s) : Inv (fetchSuccess s) := by
  unfold fetchSuccess
  split
  · exact hs
  · split
    · exact hs
    · exact hs

lemma inv_fetchFailure {s : AppState} (hs : Inv s) : Inv (fetchFailure s) := by
  unfold fetchFailure
  split
  · exact hs
  · exact hs

lemma inv_maskLoadComplete {s : AppState} (k : Nat) (hs : Inv s) :
    Inv (maskLoadComplete k s) := by
  unfold maskLoadComplete
  split
  · exact hs
  · dsimp only
    split
    · exact hs
    · rename_i entry hentry
      refine ⟨entryHiOk_of_set hs.1 (fun i hi => ?_), hs.2⟩
      exact hs.1 entry (mem_of_getElem?_some hentry) i hi

lemma inv_saveMaskClick {s : AppState} (hs : Inv s) : Inv (saveMaskClick s) := by
  unfold saveMaskClick
  split
  · exact hs
  · split
    · exact hs
    · rename_i entry hentry
      split
      · rename_i m n hcm hac
        split
        · refine ⟨entryHiOk_of_set hs.1 (fun i hi => ?_), hs.2⟩
          have := hs.1 entry (mem_of_getElem?_some hentry) i hi
          simp only [List.length_append, List.length_cons, List.length_nil]
          omega
        · exact hs
      · exact hs

lemma inv_clearPointsClick {s : AppState} (hs : Inv s) : Inv (clearPointsClick s) := by
  unfold clearPointsClick
  split
  · exact hs
  · split
    · exact hs
    · rename_i entry hentry
      split
      · refine ⟨entryHiOk_of_set hs.1 (fun i hi => ?_), hs.2⟩
        exact hs.1 entry (mem_of_getElem?_some hentry) i hi
      · exact hs

lemma inv_addClassClick {s : AppState} (n c : String) (hs : Inv s) :
    Inv (addClassClick n c s) := by
  unfold addClassClick
  split
  · refine ⟨hs.1, fun m hm => ?_⟩
    have hm' : m = n := by
      simpa using hm.symm
    subst hm'
    simp [findClassByName, List.find?_append, List.find?]
  · exact hs

lemma inv_setActiveClassOp {s : AppState} (n : String)
    (hv : ValidEvent s (.evSetActiveClass n) = true) (hs : Inv s) :
    Inv (setActiveClassOp n s) := by
  refine ⟨hs.1, fun m hm => ?_⟩
  have hm' : m = n := by simpa [setActiveClassOp] using hm.symm
  subst hm'
  simpa [ValidEvent] using hv

lemma inv_toggleHighlightOp {s : AppState} (i : Nat)
    (hv : ValidEvent s (.evToggleHighlight i) = true) (hs : Inv s) :
    Inv (toggleHighlightOp i s) := by
  unfold toggleHighlightOp
  split
  · exact hs
  · rename_i id hid
    split
    · exact hs
    · rename_i entry hentry
      have hlt : i < entry.savedMasks.length := by
        simpa [ValidEvent, hid, hentry] using hv
      refine ⟨entryHiOk_of_set hs.1 (fun j hj => ?_), hs.2⟩
      by_cases h : entry.highlightedMaskIndex = some i
      · simp [h] at hj
      · simp only [h, if_false] at hj
        obtain rfl : i = j := by simpa using hj
        exact hlt

lemma inv_setActiveImageOp {s : AppState} (i : Nat) (hs : Inv s) :
    Inv (setActiveImageOp i s) :=
  ⟨hs.1, hs.2⟩

lemma inv_loadFiles {s : AppState} (dims : List (Int × Int)) (hs : Inv s) :
    Inv (loadFiles dims s) := by
  unfold loadFiles
  split
  · exact hs
  · have base : ∀ e ∈ (s.imagesState ++
        dims.map (fun d => { imageWidth := d.1, imageHeight := d.2 : ImageEntry })),
      entryHiOk e := by
      intro e he
      rcases List.mem_append.mp he with h | h
      · exact hs.1 e h
      · obtain ⟨d, _, rfl⟩ := List.mem_map.mp h
        intro j hj
        cases hj
    dsimp only
    split
    · exact ⟨base, hs.2⟩
    · exact ⟨base, hs.2⟩

lemma inv_step {s : AppState} {e : Event} (hv : ValidEvent s e = true) (hs : Inv s) :
    Inv (step e s) := by
  cases e with
  | evMousedown cx cy rl rt rw rh b => exact inv_mousedown cx cy rl rt rw rh b hs
  | evFetchSuccess => exact inv_fetchSuccess hs
  | evFetchFailure => exact inv_fetchFailure hs
  | evMaskLoad k => exact inv_maskLoadComplete k hs
  | evSaveMask => exact inv_saveMaskClick hs
  | evClearPoints => exact inv_clearPointsClick hs
  | evAddClass n c => exact inv_addClassClick n c hs
  | evSetActiveClass n => exact inv_setActiveClassOp n hv hs
  | evToggleHighlight i => exact inv_toggleHighlightOp i hv hs
  | evSetActiveImage i => exact inv_setActiveImageOp i hs
  | evLoadFiles dims => exact inv_loadFiles dims hs

lemma reachable_inv {s : AppState} (h : Reachable s) : Inv s := by
  induction h with
  | init => exact ⟨(fun e he => nomatch he), (fun n hn => nomatch hn)⟩
  | step h hv ih => exact inv_step hv ih

end SamLabeler

namespace SamLabeler

lemma highlightTrace_reachable : Reachable highlightTrace :=
  Reachable.step
    (Reachable.step
      (Reachable.step
        (Reachable.step
          (Reachable.step
            (Reachable.step
              (Reachable.step Reachable.init (by decide))
              (by decide))
            (by decide))
          (by decide))
        (by decide))
      (by decide))
    (by decide)

lemma toggleHighlightOp_active {s : AppState} {id : Nat} {entry : ImageEntry} (i : Nat)
    (hid : s.activeImageId = some id) (hentry : s.imagesState[id]? = some entry) :
    toggleHighlightOp i s = { s with imagesState := (s.imagesState.set id
      { entry with highlightedMaskIndex :=
          if entry.highlightedMaskIndex = some i then none else some i }) } := by
  simp only [toggleHighlightOp, hid, hentry]

/-- C6 (amended): two consecutive `toggleHighlight(id, i)` calls with no
other mutation restore `highlightedMaskIndex` when its starting value is
absent or equal to `i`; but when it is some other index `j ≠ i`, the two
calls leave the highlight cleared (`none`), not restored to `j`. -/
theorem toggle_twice_cases (s : AppState) (id : Nat) (entry : ImageEntry) (i : Nat)
    (hid : s.activeImageId = some id) (hentry : s.imagesState[id]? = some entry) :
    ((entry.highlightedMaskIndex = none ∨ entry.highlightedMaskIndex = some i) →
      (toggleHighlightOp i (toggleHighlightOp i s)).imagesState[id]?.map
          (fun e => e.highlightedMaskIndex) = some entry.highlightedMaskIndex) ∧
    (∀ j, entry.highlightedMaskIndex = some j → j ≠ i →
      (toggleHighlightOp i (toggleHighlightOp i s)).imagesState[id]?.map
          (fun e => e.highlightedMaskIndex) = some none) := by
  have hlen := lt_length_of_getElem?_some hentry
  have h1 := toggleHighlightOp_active i hid hentry
  have hentry1 : (toggleHighlightOp i s).imagesState[id]? =
      some { entry with highlightedMaskIndex :=
        if entry.highlightedMaskIndex = some i then none else some i } := by
    rw [h1]
    exact List.getElem?_set_self hlen
  have h2 := toggleHighlightOp_active i (s := toggleHighlightOp i s)
      (by rw [h1]; exact hid) hentry1
  have hlen1 : id < (toggleHighlightOp i s).imagesState.length := by
    rw [h1]; simpa using hlen
  have hfinal : (toggleHighlightOp i (toggleHighlightOp i s)).imagesState[id]?.map
      (fun e => e.highlightedMaskIndex) =
      some (if (if entry.highlightedMaskIndex = some i then none else some i) = some i
            then none else some i) := by
    rw [h2]
    simp [List.getElem?_set_self hlen1]
  constructor
  · rintro (hnone | hsame)
    · rw [hfinal, hnone]
      simp
    · rw [hfinal, hsame]
      simp
  · intro j hj hne
    rw [hfinal, hj]
    simp [hne]

/-- Witness for `toggle_twice_cases`: in the session with two saved masks
and the highlight on index 0, toggling index 0 twice restores the
highlight. -/
theorem toggle_twice_cases_witness :
    (toggleHighlightOp 0 (toggleHighlightOp 0 exTwoMasksState)).imagesState[0]?.map
        (fun e => e.highlightedMaskIndex) = some (some 0) :=
  (toggle_twice_cases exTwoMasksState 0 exTwoMasksEntry 0 rfl rfl).1 (Or.inr rfl)

/-- C6 counterexample: starting from highlight index 0, toggling index 1
twice leaves the highlight cleared, not restored to 0 — the round trip fails
for a starting value `j ≠ i`. -/
theorem toggle_twice_not_roundtrip_cex :
    (exTwoMasksState.imagesState[0]?.map (fun e => e.highlightedMaskIndex)) =
      some (some 0) ∧
    ((toggleHighlightOp 1 (toggleHighlightOp 1 exTwoMasksState)).imagesState[0]?.map
        (fun e => e.highlightedMaskIndex)) = some none ∧
    (some (some 0) : Option (Option Nat)) ≠ some none :=
  ⟨by decide, by decide, by decide⟩

/-- C7 (amended): the toggle handler itself performs no bounds check and
raises no `IndexOutOfRangeError`, but the saved-masks list renders one item
per saved mask, so the DOM only emits in-range indices; under that event
model every reachable state satisfies the invariant: a present
`highlightedMaskIndex` is a valid index into the entry's saved masks. -/
theorem reachable_highlight_in_range {s : AppState} (h : Reachable s) :
    ∀ e ∈ s.imagesState, ∀ i, e.highlightedMaskIndex = some i →
      i < e.savedMasks.length :=
  fun e he i hi => (reachable_inv h).1 e he i hi

/-- Witness for `reachable_highlight_in_range`: the reachable state
`highlightTrace` holds an entry highlighted at index 0 with one saved
mask. -/
theorem reachable_highlight_in_range_witness :
    0 < [({ maskColor := "#00FF00", className := "cat",
            classColor := "#00FF00" } : SavedMask)].length :=
  reachable_highlight_in_range highlightTrace_reachable
    { imageWidth := 8, imageHeight := 6, points := [], currentMask := none,
      savedMasks := [{ maskColor := "#00FF00", className := "cat",
                       classColor := "#00FF00" }],
      highlightedMaskIndex := some 0 } (by decide) 0 rfl

/-- C7 counterexample: invoked with index 0 while no mask is saved, the
toggle handler raises no `IndexOutOfRangeError` and records the out-of-range
index, breaking the invariant. -/
theorem toggle_no_bounds_check_cex :
    ((toggleHighlightOp 0 exEmptyMasksState).imagesState[0]?.map
        (fun e => e.highlightedMaskIndex)) = some (some 0) ∧
    ((toggleHighlightOp 0 exEmptyMasksState).imagesState[0]?.map
        (fun e => e.savedMasks.length)) = some 0 :=
  ⟨by decide, by decide⟩

/-- C9 (amended): when the oracle request fails, the handler only logs the
error (no `OracleUnavailableError` reaches a caller) and resets
`isPredicting`; every image entry is untouched — the point list is never
reverted, and the pending mask is also unchanged, keeping a previously
generated mask rather than becoming absent. -/
theorem fetchFailure_state_effect (s : AppState) (id : Nat)
    (h : s.fetchInFlight = some id) :
    fetchFailure s = { s with isPredicting := false, fetchInFlight := none } ∧
    (fetchFailure s).imagesState = s.imagesState := by
  refine ⟨?_, ?_⟩ <;> simp [fetchFailure, h]

/-- Witness for `fetchFailure_state_effect` at the concrete predicting
session. -/
theorem fetchFailure_state_effect_witness :
    fetchFailure exPredictingState =
      { exPredictingState with isPredicting := false, fetchInFlight := none } ∧
    (fetchFailure exPredictingState).imagesState = exPredictingState.imagesState :=
  fetchFailure_state_effect exPredictingState 0 rfl

/-- C9 counterexample: after a failed request the entry still holds the
pending mask generated in an earlier round — `pendingMask` is not absent, as
the claim requires. -/
theorem fetchFailure_keeps_pending_mask_cex :
    ((fetchFailure exPredictingState).imagesState[0]?.map (fun e => e.currentMask)) =
      some (some { color := "#FF0000" }) ∧
    some ({ color := "#FF0000" } : ColoredMask) ≠ none :=
  ⟨by decide, by decide⟩

end SamLabeler

namespace SamLabeler

lemma saveMaskClick_active {s : AppState} {id : Nat} {entry : ImageEntry}
    {m : ColoredMask} {n : String} {classInfo : ClassDef}
    (hid : s.activeImageId = some id) (hentry : s.imagesState[id]? = some entry)
    (hm : entry.currentMask = some m) (hn : s.activeClass = some n)
    (hc : findClassByName s.classes n = some classInfo) :
    saveMaskClick s = { s with imagesState := (s.imagesState.set id
      { entry with
        savedMasks := (entry.savedMasks ++
          [{ maskColor := m.color, className := classInfo.name,
             classColor := classInfo.color }]),
        currentMask := none, points := [] }) } := by
  simp only [saveMaskClick, hid, hentry, hm, hn, hc]

/-- C2 (amended): on a `MASK_READY` entry with a registered active class, the
save handler atomically appends exactly one saved mask carrying the class
name and a snapshot of the class's current color, and clears the entry's
points and pending mask; the mask image itself is appended as is — its
pixels keep the color painted at prediction time, no recoloring happens at
confirm time. -/
theorem saveMask_appends_snapshot_and_clears (s : AppState) (id : Nat)
    (entry : ImageEntry) (m : ColoredMask) (n : String) (classInfo : ClassDef)
    (hid : s.activeImageId = some id) (hentry : s.imagesState[id]? = some entry)
    (hm : entry.currentMask = some m) (hn : s.activeClass = some n)
    (hc : findClassByName s.classes n = some classInfo) :
    (saveMaskClick s).imagesState[id]? = some
      { entry with
        savedMasks := (entry.savedMasks ++
          [{ maskColor := m.color, className := classInfo.name,
             classColor := classInfo.color }]),
        currentMask := none, points := [] } ∧
    (∀ e', (saveMaskClick s).imagesState[id]? = some e' →
      e'.savedMasks.length = entry.savedMasks.length + 1 ∧
      e'.points = [] ∧ e'.currentMask = none) := by
  have hlen := lt_length_of_getElem?_some hentry
  have hget : (saveMaskClick s).imagesState[id]? = some
      { entry with
        savedMasks := (entry.savedMasks ++
          [{ maskColor := m.color, className := classInfo.name,
             classColor := classInfo.color }]),
        currentMask := none, points := [] } := by
    rw [saveMaskClick_active hid hentry hm hn hc]
    exact List.getElem?_set_self hlen
  refine ⟨hget, fun e' he' => ?_⟩
  rw [hget] at he'
  cases he'
  exact ⟨by simp, rfl, rfl⟩

/-- Witness for `saveMask_appends_snapshot_and_clears` at the concrete
session `exSaveState`. -/
theorem saveMask_appends_snapshot_and_clears_witness :
    (saveMaskClick exSaveState).imagesState[0]? = some
      { exSaveEntry with
        savedMasks := [{ maskColor := "#FF0000", className := "cat",
                         classColor := "#00FF00" }],
        currentMask := none, points := [] } :=
  (saveMask_appends_snapshot_and_clears exSaveState 0 exSaveEntry
    { color := "#FF0000" } "cat" { name := "cat", color := "#00FF00" }
    rfl rfl rfl rfl (by decide)).1

/-- C2 counterexample: the pending mask of `exSaveState` was painted red at
prediction time while the active class `cat` is green; the save handler
stores the red mask as is — it does not recolor the pending mask with the
class's current color. -/
theorem saveMask_no_recolor_cex :
    ((saveMaskClick exSaveState).imagesState[0]?.map (fun e => e.savedMasks)) =
      some [{ maskColor := "#FF0000", className := "cat", classColor := "#00FF00" }] ∧
    ((findClassByName exSaveState.classes "cat").map (fun c => c.color)) =
      some "#00FF00" ∧
    ("#FF0000" : String) ≠ "#00FF00" :=
  ⟨by decide, by decide, by decide⟩

lemma saveMaskClick_noop {s : AppState}
    (h : (∀ entry, getActiveImageState s = some entry → entry.currentMask = none) ∨
      s.activeClass = none) :
    saveMaskClick s = s := by
  unfold saveMaskClick
  split
  · rfl
  · rename_i id hid
    split
    · rfl
    · rename_i entry hentry
      split
      · rename_i m n hm hn
        exfalso
        rcases h with h | h
        · have hcm := h entry (by simp [getActiveImageState, hid, hentry])
          rw [hcm] at hm
          exact nomatch hm
        · rw [h] at hn
          exact nomatch hn
      · rfl

/-- C3 (amended): confirming on an entry that is not `MASK_READY` (no
pending mask), or with no active class, is a silent no-op: the handler
returns without reporting any error and the state is unchanged.  Moreover in
every reachable state the active class, when set, names a registered class,
so an unknown-class confirm cannot arise (and no `UnknownClassError`
mechanism exists in the code). -/
theorem saveMask_silent_noop :
    (∀ s : AppState,
      ((∀ entry, getActiveImageState s = some entry → entry.currentMask = none) ∨
        s.activeClass = none) →
      saveMaskClickE s = (s, none)) ∧
    (∀ s : AppState, Reachable s → ∀ n, s.activeClass = some n →
      (findClassByName s.classes n).isSome) := by
  constructor
  · intro s h
    unfold saveMaskClickE
    rw [saveMaskClick_noop h]
  · intro s hr n hn
    exact (reachable_inv hr).2 n hn

/-- Witness for `saveMask_silent_noop`: the no-pending-mask session is left
unchanged with no error, and the reachable `highlightTrace` has its active
class `cat` registered. -/
theorem saveMask_silent_noop_witness :
    saveMaskClickE exNoMaskState = (exNoMaskState, none) ∧
    (findClassByName highlightTrace.classes "cat").isSome := by
  constructor
  · refine saveMask_silent_noop.1 exNoMaskState (Or.inl ?_)
    intro entry h
    have h0 : getActiveImageState exNoMaskState = some exNoMaskEntry := rfl
    have h' := h0.symm.trans h
    cases h'
    rfl
  · exact saveMask_silent_noop.2 highlightTrace highlightTrace_reachable "cat" (by decide)

/-- C3 counterexample: confirming while the active entry has no pending mask
produces no error value at all — in particular not `NoPendingMaskError` —
and silently leaves the state unchanged. -/
theorem saveMask_reports_no_error_cex :
    (saveMaskClickE exNoMaskState).2 = none ∧
    (saveMaskClickE exNoMaskState).2 ≠ some SaveError.noPendingMask ∧
    (saveMaskClickE exNoMaskState).1 = exNoMaskState :=
  ⟨rfl, by decide, by decide⟩

lemma fetchSuccess_eval {s : AppState} {id : Nat} {c : String}
    (hf : s.fetchInFlight = some id) (hc : predictionColor s = some c) :
    fetchSuccess s = { s with isPredicting := false, fetchInFlight := none,
                              maskLoads := (s.maskLoads ++ [{ target := id, color := c }]) } := by
  simp only [fetchSuccess, hf, hc]

lemma maskLoadComplete_eval {s : AppState} {k : Nat} {load : MaskLoad}
    {entry : ImageEntry} (hk : s.maskLoads[k]? = some load)
    (he : s.imagesState[load.target]? = some entry) :
    maskLoadComplete k s = { s with maskLoads := s.maskLoads.eraseIdx k,
                                    imagesState := (s.imagesState.set load.target
                                      { entry with currentMask := some { color := load.color } }) } := by
  simp only [maskLoadComplete, hk, he]

/-- C10: the pending mask's color is decided when the oracle response is
processed: the color of the class active at that moment, or red `#FF0000`
when none is active; the registered load continuation carries that color;
applying it paints the pending mask exactly that color; and the later save
appends the mask without recoloring — the saved pixels keep the
prediction-time color. -/
theorem prediction_time_coloring :
    (∀ s : AppState, s.activeClass = none → predictionColor s = some "#FF0000") ∧
    (∀ (s : AppState) (n : String) (c : ClassDef), s.activeClass = some n →
      findClassByName s.classes n = some c → predictionColor s = some c.color) ∧
    (∀ (s : AppState) (id : Nat) (c : String), s.fetchInFlight = some id →
      predictionColor s = some c →
      fetchSuccess s = { s with isPredicting := false, fetchInFlight := none,
                                maskLoads := (s.maskLoads ++ [{ target := id, color := c }]) }) ∧
    (∀ (s : AppState) (k : Nat) (load : MaskLoad) (entry : ImageEntry),
      s.maskLoads[k]? = some load → s.imagesState[load.target]? = some entry →
      (maskLoadComplete k s).imagesState[load.target]? =
        some { entry with currentMask := some { color := load.color } }) ∧
    (∀ (s : AppState) (id : Nat) (entry : ImageEntry) (m : ColoredMask)
      (n : String) (classInfo : ClassDef), s.activeImageId = some id →
      s.imagesState[id]? = some entry → entry.currentMask = some m →
      s.activeClass = some n → findClassByName s.classes n = some classInfo →
      ((saveMaskClick s).imagesState[id]?.map
          (fun e => e.savedMasks.map (fun sm => sm.maskColor))) =
        some (entry.savedMasks.map (fun sm => sm.maskColor) ++ [m.color])) := by
  refine ⟨?_, ?_, ?_, ?_, ?_⟩
  · intro s h
    simp [predictionColor, h]
  · intro s n c hn hc
    simp [predictionColor, hn, hc]
  · intro s id c hf hc
    exact fetchSuccess_eval hf hc
  · intro s k load entry hk he
    rw [maskLoadComplete_eval hk he]
    exact List.getElem?_set_self (lt_length_of_getElem?_some he)
  · intro s id entry m n classInfo hid hentry hm hn hc
    rw [saveMaskClick_active hid hentry hm hn hc]
    rw [List.getElem?_set_self (lt_length_of_getElem?_some hentry)]
    simp

/-- Witness for `prediction_time_coloring`: red is chosen with no active
class, the resolving fetch registers the red load for entry 0, and the saved
mask of `exSaveState` keeps its red prediction-time pixels. -/
theorem prediction_time_coloring_witness :
    predictionColor initState = some "#FF0000" ∧
    fetchSuccess exPredictingState = { exPredictingState with
                                        isPredicting := false, fetchInFlight := none,
                                        maskLoads := [{ target := 0, color := "#FF0000" }] } ∧
    ((saveMaskClick exSaveState).imagesState[0]?.map
        (fun e => e.savedMasks.map (fun sm => sm.maskColor))) = some ["#FF0000"] := by
  refine ⟨prediction_time_coloring.1 initState rfl, ?_, ?_⟩
  · have h := prediction_time_coloring.2.2.1 exPredictingState 0 "#FF0000" rfl rfl
    simpa using h
  · have h := prediction_time_coloring.2.2.2.2 exSaveState 0 exSaveEntry
      { color := "#FF0000" } "cat" { name := "cat", color := "#00FF00" }
      rfl rfl rfl rfl (by decide)
    simpa [exSaveEntry] using h

end SamLabeler

namespace SamLabeler

lemma staleTrace_applied_reachable : Reachable (step (.evMaskLoad 0) staleTrace) :=
  Reachable.step
    (Reachable.step
      (Reachable.step
        (Reachable.step
          (Reachable.step Reachable.init (by decide))
          (by decide))
        (by decide))
      (by decide))
    (by decide)

lemma mousedown_predicting {s : AppState} (cx cy rl rt rw rh : ℚ) (b : Nat)
    (h : s.isPredicting = true) : mousedown cx cy rl rt rw rh b s = s := by
  unfold mousedown
  split
  · rfl
  · split
    · rfl
    · simp [h]

/-- C1 (amended): the script performs no staleness check.  While the fetch
itself is outstanding (`isPredicting`), mousedown adds no point, so the
point list cannot change between request start and fetch resolution; but
once the fetch has resolved, the registered colored-mask load continuation,
when it fires, overwrites the captured entry's pending mask unconditionally,
whatever the entry's point list has become in the meantime — a response that
became stale in that window is applied, not discarded. -/
theorem no_staleness_check :
    (∀ (s : AppState) (cx cy rl rt rw rh : ℚ) (b : Nat), s.isPredicting = true →
      mousedown cx cy rl rt rw rh b s = s) ∧
    (∀ (s : AppState) (k : Nat) (load : MaskLoad) (entry : ImageEntry),
      s.maskLoads[k]? = some load → s.imagesState[load.target]? = some entry →
      (maskLoadComplete k s).imagesState[load.target]? =
        some { entry with currentMask := some { color := load.color } }) := by
  constructor
  · intro s cx cy rl rt rw rh b h
    exact mousedown_predicting cx cy rl rt rw rh b h
  · intro s k load entry hk he
    rw [maskLoadComplete_eval hk he]
    exact List.getElem?_set_self (lt_length_of_getElem?_some he)

/-- Witness for `no_staleness_check`: a mousedown during prediction is a
no-op, and the pending load continuation of `exLoadState` paints entry 0's
pending mask red when it fires. -/
theorem no_staleness_check_witness :
    mousedown 4 4 0 0 8 6 0 exPredictingState = exPredictingState ∧
    (maskLoadComplete 0 exLoadState).imagesState[0]? =
      some { exNoMaskEntry with currentMask := some { color := "#FF0000" } } :=
  ⟨no_staleness_check.1 exPredictingState 4 4 0 0 8 6 0 rfl,
   no_staleness_check.2 exLoadState 0 { target := 0, color := "#FF0000" }
     exNoMaskEntry rfl rfl⟩

/-- C1 counterexample: in the valid browser trace `staleTrace` a second
point was added after the first request's response arrived but before its
colored mask finished loading (the point list grew to 2); the load
continuation still fires and changes the entry's pending mask from absent to
the red mask — the stale response alters `pendingMask` instead of being
discarded. -/
theorem stale_response_overwrites_pending_cex :
    (staleTrace.imagesState[0]?.map (fun e => e.points.length)) = some 2 ∧
    (staleTrace.imagesState[0]?.map (fun e => e.currentMask)) = some none ∧
    ((step (.evMaskLoad 0) staleTrace).imagesState[0]?.map (fun e => e.currentMask)) =
      some (some { color := "#FF0000" }) ∧
    some (none : Option ColoredMask) ≠ some (some ({ color := "#FF0000" } : ColoredMask)) :=
  ⟨by decide, by decide, by decide, by decide⟩

/-- C8 (amended): while a request is outstanding (`isPredicting`) the
mousedown handler returns before appending, so adding a point is blocked
(ignored, not queued); switching the active image and clearing points are
not guarded by `isPredicting` and take effect as usual. -/
theorem interactions_while_predicting :
    (∀ (s : AppState) (cx cy rl rt rw rh : ℚ) (b : Nat), s.isPredicting = true →
      mousedown cx cy rl rt rw rh b s = s) ∧
    (∀ (s : AppState) (i : Nat),
      setActiveImageOp i s = { s with activeImageId := some i }) ∧
    (∀ (s : AppState) (id : Nat) (entry : ImageEntry), s.activeImageId = some id →
      s.imagesState[id]? = some entry →
      (0 < entry.points.length ∨ entry.currentMask.isSome) →
      (clearPointsClick s).imagesState[id]? =
        some { entry with points := [], currentMask := none }) := by
  refine ⟨?_, ?_, ?_⟩
  · intro s cx cy rl rt rw rh b h
    exact mousedown_predicting cx cy rl rt rw rh b h
  · intro s i
    rfl
  · intro s id entry hid hentry hw
    have hlen := lt_length_of_getElem?_some hentry
    unfold clearPointsClick
    simp only [hid, hentry]
    rw [if_pos hw]
    exact List.getElem?_set_self hlen

/-- Witness for `interactions_while_predicting` at the concrete predicting
session: the click is ignored, image switching works, clearing works. -/
theorem interactions_while_predicting_witness :
    mousedown 2 2 0 0 8 6 0 exPredictingState = exPredictingState ∧
    setActiveImageOp 0 exPredictingState =
      { exPredictingState with activeImageId := some 0 } ∧
    (clearPointsClick exPredictingState).imagesState[0]? =
      some { exPredictingEntry with points := [], currentMask := none } :=
  ⟨interactions_while_predicting.1 exPredictingState 2 2 0 0 8 6 0 rfl,
   interactions_while_predicting.2.1 exPredictingState 0,
   interactions_while_predicting.2.2 exPredictingState 0 exPredictingEntry rfl rfl
     (Or.inl (by decide))⟩

/-- C8 counterexample: with a request outstanding, a mousedown on the canvas
leaves the state unchanged — the point is not appended (the point list stays
at 2 points). -/
theorem mousedown_blocked_while_predicting_cex :
    mousedown 3 3 0 0 8 6 0 exPredictingState = exPredictingState ∧
    (exPredictingState.imagesState[0]?.map (fun e => e.points.length)) = some 2 ∧
    ((mousedown 3 3 0 0 8 6 0 exPredictingState).imagesState[0]?.map
        (fun e => e.points.length)) = some 2 :=
  ⟨by rfl, by decide, by rfl⟩

end SamLabeler
